import Mathlib

/-!
Verification development for the chart-payload extraction and rendering core
of the `ai_agent_chat` repository.

The source under scrutiny:
* `textRenderer` (frontend chat page): scans one assistant message for an
  embedded JSON chart payload, first as a fenced ```json code block, then as
  an inline JSON literal, validates it
  (`chartData.type === "stock_chart" && chartData.data && chartData.ticker`),
  and on acceptance passes the fields (with `company_name || ticker` and
  `period || "1mo"` defaults) to the `StockChart` component together with the
  input text with the matched fragment removed and trimmed.
* `StockChart` (React component): on empty/falsy `data` renders a no-data
  state; otherwise computes `firstPrice = data[0]?.price || 0`,
  `priceChange = current_price - firstPrice`,
  `priceChangePercent = ((priceChange / firstPrice) * 100).toFixed(2)`,
  `isPositive = priceChange >= 0`, and renders header, chart and stats.

The embedding models JavaScript runtime values (`JsVal`), IEEE-style numeric
special values at the level the program observes them (`JsNum`: finite
rationals plus Infinity / -Infinity / NaN; JavaScript doubles are embedded as
exact rationals, which is faithful for every arithmetic step these claims
exercise), `JSON.parse` (as a strict JSON parser returning `Option`),
the two concrete regular expressions via a small backtracking engine with
JavaScript's leftmost-match, greedy/lazy ordering, and the renderer as a
total function into `Except JsError RenderResult` where a thrown `TypeError`
is the `.error` case.
-/

/-- JavaScript number values as observed by this program: an exact rational
(standing in for a finite double) or one of the non-finite specials. -/
inductive JsNum where
  | finite (q : ℚ)
  | posInf
  | negInf
  | nan
deriving DecidableEq

/-- Kernel-computable subtraction on `ℚ` (the Batteries field operations are
`@[irreducible]`); `qSub_eq_sub` identifies it with `a - b`. -/
def qSub (a b : ℚ) : ℚ := mkRat (a.num * b.den - b.num * a.den) (a.den * b.den)

/-- Kernel-computable multiplication on `ℚ`; `qMul_eq_mul` identifies it with
`a * b`. -/
def qMul (a b : ℚ) : ℚ := mkRat (a.num * b.num) (a.den * b.den)

/-- Kernel-computable division on `ℚ`; `qDiv_eq_div` identifies it with
`a / b`. -/
def qDiv (a b : ℚ) : ℚ := Rat.divInt (a.num * b.den) (a.den * b.num)

/-- JavaScript subtraction on numbers (`a - b`), with IEEE special cases. -/
def JsNum.sub : JsNum → JsNum → JsNum
  | .nan, _ => .nan
  | _, .nan => .nan
  | .finite a, .finite b => .finite (qSub a b)
  | .posInf, .posInf => .nan
  | .posInf, _ => .posInf
  | .negInf, .negInf => .nan
  | .negInf, _ => .negInf
  | .finite _, .posInf => .negInf
  | .finite _, .negInf => .posInf

/-- JavaScript division on numbers (`a / b`): division by zero yields a signed
infinity (or NaN for `0 / 0`), exactly as the renderer can trigger with a zero
period-start price. -/
def JsNum.div : JsNum → JsNum → JsNum
  | .nan, _ => .nan
  | _, .nan => .nan
  | .finite a, .finite b =>
      if b = 0 then (if a = 0 then .nan else if a > 0 then .posInf else .negInf)
      else .finite (qDiv a b)
  | .finite _, .posInf => .finite 0
  | .finite _, .negInf => .finite 0
  | .posInf, .finite b => if b ≥ 0 then .posInf else .negInf
  | .negInf, .finite b => if b ≥ 0 then .negInf else .posInf
  | _, _ => .nan

/-- JavaScript multiplication on numbers. -/
def JsNum.mul : JsNum → JsNum → JsNum
  | .nan, _ => .nan
  | _, .nan => .nan
  | .finite a, .finite b => .finite (qMul a b)
  | .finite a, .posInf => if a = 0 then .nan else if a > 0 then .posInf else .negInf
  | .finite a, .negInf => if a = 0 then .nan else if a > 0 then .negInf else .posInf
  | .posInf, .finite b => if b = 0 then .nan else if b > 0 then .posInf else .negInf
  | .negInf, .finite b => if b = 0 then .nan else if b > 0 then .negInf else .posInf
  | .posInf, .posInf => .posInf
  | .posInf, .negInf => .negInf
  | .negInf, .posInf => .negInf
  | .negInf, .negInf => .posInf

/-- JavaScript `>=` on numbers; any comparison involving NaN is false. -/
def JsNum.ge : JsNum → JsNum → Bool
  | .nan, _ => false
  | _, .nan => false
  | .finite a, .finite b => decide (a ≥ b)
  | .posInf, _ => true
  | _, .posInf => false
  | _, .negInf => true
  | .negInf, _ => false

/-- Two-digit zero padding for the fractional part of `toFixed(2)`. -/
def pad2 (n : Nat) : String := if n < 10 then "0" ++ Nat.repr n else Nat.repr n

/-- `Number.prototype.toFixed(2)` on a finite value: ECMA-262 picks the integer
n closest to `x * 100`, larger on ties (after splitting off the sign), i.e.
round-half-up on the magnitude. For `q` with numerator `n` and denominator `d`
in lowest terms, that integer is `⌊(|n| * 200 + d) / (2 * d)⌋`, computed here
by natural division; the sign of `q` is the sign of its numerator. -/
def ratToFixed2 (q : ℚ) : String :=
  let cents := (q.num.natAbs * 200 + q.den) / (2 * q.den)
  (if q.num < 0 then "-" else "") ++ Nat.repr (cents / 100) ++ "." ++ pad2 (cents % 100)

/-- `toFixed(2)` on a JavaScript number, including the non-finite cases, which
render as the strings "Infinity", "-Infinity" and "NaN". -/
def JsNum.toFixed2 : JsNum → String
  | .finite q => ratToFixed2 q
  | .posInf => "Infinity"
  | .negInf => "-Infinity"
  | .nan => "NaN"

/-- JavaScript runtime values, as produced by `JSON.parse` plus `undefined`. -/
inductive JsVal where
  | undef
  | null
  | bool (b : Bool)
  | num (n : JsNum)
  | str (s : String)
  | arr (xs : List JsVal)
  | obj (fields : List (String × JsVal))

/-- A thrown JavaScript `TypeError`. -/
inductive JsError where
  | typeError (msg : String)
deriving DecidableEq

/-- JavaScript truthiness: `undefined`, `null`, `false`, `0`, `NaN` and the
empty string are falsy; every object and array (including `[]`) is truthy. -/
def truthy : JsVal → Bool
  | .undef => false
  | .null => false
  | .bool b => b
  | .num (.finite q) => decide (q ≠ 0)
  | .num .nan => false
  | .num _ => true
  | .str s => decide (s ≠ "")
  | .arr _ => true
  | .obj _ => true

/-- JavaScript `a || b`: `a` if truthy, otherwise `b`. -/
def jsOr (a b : JsVal) : JsVal := if truthy a then a else b

/-- Last-wins association lookup, matching `JSON.parse`'s duplicate-key
behavior (the last occurrence of a key is the one observed). -/
def lookupLast (fs : List (String × JsVal)) (name : String) : Option JsVal :=
  match fs with
  | [] => none
  | (k, v) :: rest =>
    match lookupLast rest name with
    | some w => some w
    | none => if k = name then some v else none

/-- Property access `v.name`: throws a `TypeError` on `undefined`/`null`,
looks up object fields, exposes `length` on arrays and strings, and yields
`undefined` everywhere else. -/
def getField : JsVal → String → Except JsError JsVal
  | .undef, n =>
      .error (.typeError ("Cannot read properties of undefined (reading " ++ n ++ ")"))
  | .null, n =>
      .error (.typeError ("Cannot read properties of null (reading " ++ n ++ ")"))
  | .obj fs, n => .ok ((lookupLast fs n).getD .undef)
  | .arr xs, n =>
      if n = "length" then .ok (.num (.finite (xs.length : ℚ))) else .ok .undef
  | .str s, n =>
      if n = "length" then .ok (.num (.finite (s.length : ℚ))) else .ok .undef
  | .bool _, _ => .ok .undef
  | .num _, _ => .ok (.undef)

/-- Index access `v[i]`: throws on `undefined`/`null`, indexes arrays and
strings, falls back to a property lookup on objects. -/
def jsIndex : JsVal → Nat → Except JsError JsVal
  | .undef, _ => .error (.typeError "Cannot read properties of undefined")
  | .null, _ => .error (.typeError "Cannot read properties of null")
  | .arr xs, i => .ok ((xs.get? i).getD .undef)
  | .str s, i =>
      .ok (match s.data.get? i with
           | some c => .str (String.mk [c])
           | none => .undef)
  | .obj fs, i => .ok ((lookupLast fs (Nat.repr i)).getD .undef)
  | .bool _, _ => .ok .undef
  | .num _, _ => .ok (.undef)

/-- Optional-chained property access `v?.name`: `undefined` when `v` is
nullish, otherwise an ordinary (non-throwing) property access. -/
def optField (v : JsVal) (n : String) : JsVal :=
  match v with
  | .undef => .undef
  | .null => .undef
  | w =>
    match getField w n with
    | .ok r => r
    | .error _ => (.undef)

/-- Strict equality of a value against a string literal (`v === "s"`). -/
def isStr (v : JsVal) (s : String) : Bool :=
  match v with
  | .str t => decide (t = s)
  | _ => false

/-- Strict equality of a value against the number literal `0` (`v === 0`). -/
def isNumZero : JsVal → Bool
  | .num (.finite q) => decide (q = 0)
  | _ => false

/-- The JavaScript `\s` / WhiteSpace+LineTerminator character class, restricted
to the code points this program can encounter (ASCII whitespace, NBSP, BOM). -/
def wsChar (c : Char) : Bool :=
  c = ' ' || c = '\t' || c = '\n' || c = '\r' || c = '\x0b' || c = '\x0c' ||
  c = ' ' || c = '﻿'

/-- `String.prototype.trim`: strip whitespace from both ends. -/
def jsTrim (s : List Char) : List Char :=
  ((s.dropWhile wsChar).reverse.dropWhile wsChar).reverse

/-- String-level wrapper for `jsTrim`. -/
def jsTrimS (s : String) : String := String.mk (jsTrim s.data)

/-- `String.prototype.replace` with a plain-string pattern and empty
replacement: remove the first occurrence of `pat` (no-op when absent). -/
def replaceFirstL (s pat : List Char) : List Char :=
  match s with
  | [] => []
  | c :: s' =>
    if pat.isPrefixOf (c :: s') then (c :: s').drop pat.length
    else c :: replaceFirstL s' pat

/-- String-level wrapper for `replaceFirstL`. -/
def replaceFirst (s pat : String) : String := String.mk (replaceFirstL s.data pat.data)

/-- ASCII decimal digit test. -/
def isDigit (c : Char) : Bool := '0' ≤ c && c ≤ '9'

/-- Numeric value of a digit string (most significant first). -/
def digitsVal (ds : List Char) : ℕ := ds.foldl (fun a c => a * 10 + (c.toNat - 48)) 0

/-- Parse a strict JSON number (`-? int frac? exp?`, no leading zeros) from the
front of the input, returning its exact rational value and the rest. -/
def parseNumber (s : List Char) : Option (ℚ × List Char) :=
  let (neg, s1) := match s with
    | '-' :: r => (true, r)
    | r => (false, r)
  let (ids, s2) := s1.span isDigit
  if ids.isEmpty then none
  else if 1 < ids.length ∧ ids.head? = some '0' then none
  else
    let fracRes : Option (List Char × List Char) := match s2 with
      | '.' :: r =>
        let (fds, s3) := r.span isDigit
        if fds.isEmpty then none else some (fds, s3)
      | r => some ([], r)
    match fracRes with
    | none => none
    | some (fds, s3) =>
      let expRes : Option (Bool × List Char × List Char) := match s3 with
        | 'e' :: '+' :: r =>
          let (eds, s4) := r.span isDigit
          if eds.isEmpty then none else some (false, eds, s4)
        | 'E' :: '+' :: r =>
          let (eds, s4) := r.span isDigit
          if eds.isEmpty then none else some (false, eds, s4)
        | 'e' :: '-' :: r =>
          let (eds, s4) := r.span isDigit
          if eds.isEmpty then none else some (true, eds, s4)
        | 'E' :: '-' :: r =>
          let (eds, s4) := r.span isDigit
          if eds.isEmpty then none else some (true, eds, s4)
        | 'e' :: r =>
          let (eds, s4) := r.span isDigit
          if eds.isEmpty then none else some (false, eds, s4)
        | 'E' :: r =>
          let (eds, s4) := r.span isDigit
          if eds.isEmpty then none else some (false, eds, s4)
        | r => some (false, [], r)
      match expRes with
      | none => none
      | some (expNeg, eds, s4) =>
        let n10 : ℕ := digitsVal ids * 10 ^ fds.length + digitsVal fds
        let e : ℕ := digitsVal eds
        let mag : ℚ :=
          if expNeg then mkRat (n10 : ℤ) (10 ^ (fds.length + e))
          else mkRat ((n10 * 10 ^ e : ℕ) : ℤ) (10 ^ fds.length)
        some ((if neg then -mag else mag), s4)

/-- JavaScript string-to-number coercion (`Number(s)` as used by arithmetic
operators), for the decimal and Infinity forms (hexadecimal and the more
exotic StringNumericLiteral forms do not occur in this program's data). -/
def strToNum (s : String) : JsNum :=
  let t := jsTrim s.data
  if t = [] then .finite 0
  else if t = ("Infinity").data ∨ t = ("+Infinity").data then .posInf
  else if t = ("-Infinity").data then .negInf
  else
    let t2 := match t with
      | '+' :: r => r
      | r => r
    match parseNumber t2 with
    | some (q, []) => .finite q
    | _ => .nan

/-- JavaScript `ToNumber` coercion on the values this program can produce.
Arrays coerce through their joined string form; the cases are spelled out for
the singleton shapes that are reachable here (a multi-element or nested array
and a plain object coerce to NaN). -/
def toNumber : JsVal → JsNum
  | .undef => .nan
  | .null => .finite 0
  | .bool b => .finite (if b then 1 else 0)
  | .num n => n
  | .str s => strToNum s
  | .arr [] => .finite 0
  | .arr [.num n] => n
  | .arr [.str s] => strToNum s
  | .arr [.null] => .finite 0
  | .arr [.undef] => .finite 0
  | .arr _ => .nan
  | .obj _ => .nan

/-- JavaScript binary `-` on arbitrary values: both operands are coerced with
`ToNumber`; the result is always a number (possibly NaN), never a throw. -/
def jsSub (a b : JsVal) : JsNum := JsNum.sub (toNumber a) (toNumber b)

/-- Method call `v.toFixed(2)`: succeeds only on numbers; on `undefined` or
`null` the property read itself throws, on any other non-number the call
throws because the property is not a function. -/
def jsToFixed : JsVal → Except JsError String
  | .num n => .ok (JsNum.toFixed2 n)
  | .undef => .error (.typeError "Cannot read properties of undefined (reading toFixed)")
  | .null => .error (.typeError "Cannot read properties of null (reading toFixed)")
  | _ => .error (.typeError "toFixed is not a function")

/-- The visual output of a successful `StockChart` render, one field per
dynamic slot of the returned JSX (header texts, change indicator, the data
series handed to the line chart, and the stats panel). -/
structure ChartView where
  ticker : JsVal
  period : JsVal
  company_name : JsVal
  currentPriceText : String
  isPositive : Bool
  priceChangeText : String
  percentText : String
  chartData : JsVal
  firstPriceText : String
  pointCount : JsVal

/-- Result of rendering: the dedicated no-data block (showing the ticker) or a
full chart view. -/
inductive RenderResult where
  | noData (ticker : JsVal)
  | chart (view : ChartView)

/-- The `StockChart` component body. `if (!data || data.length === 0)` renders
the no-data state; otherwise the component computes
`firstPrice = data[0]?.price || 0`, `priceChange = current_price - firstPrice`,
`priceChangePercent = ((priceChange / firstPrice) * 100).toFixed(2)` and
`isPositive = priceChange >= 0`, then evaluates the JSX, whose first throwing
subterm is `current_price.toFixed(2)` in the header, followed by
`firstPrice.toFixed(2)` in the stats panel. -/
def StockChart (ticker company_name period data current_price : JsVal) :
    Except JsError RenderResult :=
  if truthy data = false then .ok (.noData ticker)
  else
    match getField data ("length") with
    | .error e => .error e
    | .ok len =>
      if isNumZero len then .ok (.noData ticker)
      else
        match jsIndex data 0 with
        | .error e => .error e
        | .ok d0 =>
          let firstPrice := jsOr (optField d0 ("price")) (.num (.finite 0))
          let priceChange := jsSub current_price firstPrice
          let priceChangePercent :=
            JsNum.toFixed2 (JsNum.mul (JsNum.div priceChange (toNumber firstPrice)) (.finite 100))
          let isPositive := JsNum.ge priceChange (.finite 0)
          match jsToFixed current_price with
          | .error e => .error e
          | .ok cpText =>
            match jsToFixed firstPrice with
            | .error e => .error e
            | .ok fpText =>
              .ok (.chart
                { ticker := ticker
                  period := period
                  company_name := company_name
                  currentPriceText := cpText
                  isPositive := isPositive
                  priceChangeText := JsNum.toFixed2 priceChange
                  percentText := priceChangePercent
                  chartData := data
                  firstPriceText := fpText
                  pointCount := len })

/-- One `(date, price, volume)` sample of a chart's series, with prices as
exact rationals (the `StockChartData` interface of the component). -/
structure PricePoint where
  date : String
  price : ℚ
  volume : ℚ

/-- A structurally valid chart payload per the component's props interface:
`ticker`, `company_name`, `period`, `data`, `current_price`. -/
structure ChartPayload where
  ticker : String
  company_name : String
  period : String
  data : List PricePoint
  current_price : ℚ

/-- Encoding of a `PricePoint` as the JavaScript object it arrives as. -/
def encodePoint (p : PricePoint) : JsVal :=
  .obj [(("date"), .str p.date), (("price"), .num (.finite p.price)),
        (("volume"), .num (.finite p.volume))]

/-- Encoding of a price series as a JavaScript array. -/
def encodeData (d : List PricePoint) : JsVal := .arr (d.map encodePoint)

/-- Rendering a structurally valid payload: apply `StockChart` to the
JavaScript encodings of its fields. -/
def renderPayload (p : ChartPayload) : Except JsError RenderResult :=
  StockChart (.str p.ticker) (.str p.company_name) (.str p.period)
    (encodeData p.data) (.num (.finite p.current_price))

/-- JSON insignificant whitespace (space, tab, newline, carriage return). -/
def jsonWs (c : Char) : Bool := c = ' ' || c = '\t' || c = '\n' || c = '\r'

/-- Skip JSON whitespace. -/
def skipWs (s : List Char) : List Char := s.dropWhile jsonWs

/-- Hexadecimal digit value, if any. -/
def hexVal (c : Char) : Option ℕ :=
  if isDigit c then some (c.toNat - 48)
  else if 'a' ≤ c ∧ c ≤ 'f' then some (c.toNat - 87)
  else if 'A' ≤ c ∧ c ≤ 'F' then some (c.toNat - 70)
  else none

/-- Parse the body of a JSON string after its opening quote: literal characters
(control characters rejected), the simple escapes, and `\uXXXX`. Returns the
decoded characters and the input after the closing quote. -/
def parseStringChars : List Char → Option (List Char × List Char)
  | [] => none
  | '"' :: r => some ([], r)
  | '\\' :: e :: r =>
    match e with
    | '"' => (parseStringChars r).map (fun (cs, rest) => ('"' :: cs, rest))
    | '\\' => (parseStringChars r).map (fun (cs, rest) => ('\\' :: cs, rest))
    | '/' => (parseStringChars r).map (fun (cs, rest) => ('/' :: cs, rest))
    | 'b' => (parseStringChars r).map (fun (cs, rest) => ('\x08' :: cs, rest))
    | 'f' => (parseStringChars r).map (fun (cs, rest) => ('\x0c' :: cs, rest))
    | 'n' => (parseStringChars r).map (fun (cs, rest) => ('\n' :: cs, rest))
    | 'r' => (parseStringChars r).map (fun (cs, rest) => ('\r' :: cs, rest))
    | 't' => (parseStringChars r).map (fun (cs, rest) => ('\t' :: cs, rest))
    | 'u' =>
      match r with
      | h1 :: h2 :: h3 :: h4 :: r2 =>
        match hexVal h1, hexVal h2, hexVal h3, hexVal h4 with
        | some a, some b, some c, some d =>
          (parseStringChars r2).map
            (fun (cs, rest) => (Char.ofNat (a * 4096 + b * 256 + c * 16 + d) :: cs, rest))
        | _, _, _, _ => none
      | _ => none
    | _ => none
  | c :: r =>
    if c.toNat < 32 then none
    else (parseStringChars r).map (fun (cs, rest) => (c :: cs, rest))

mutual

/-- Strict JSON value parser (model of `JSON.parse`), with a fuel argument for
structural termination; one unit of input is consumed before every recursive
call, so `length + 1` fuel always suffices. Returns the value and the rest. -/
def parseValue : Nat → List Char → Option (JsVal × List Char)
  | 0, _ => none
  | _ + 1, [] => none
  | fuel + 1, c :: r =>
    if c = '"' then
      (parseStringChars r).map (fun (cs, rest) => (.str (String.mk cs), rest))
    else if c = '{' then parseMembers fuel (skipWs r) []
    else if c = '[' then parseElems fuel (skipWs r) []
    else if ("null").data.isPrefixOf (c :: r) then some (.null, (c :: r).drop 4)
    else if ("true").data.isPrefixOf (c :: r) then some (.bool true, (c :: r).drop 4)
    else if ("false").data.isPrefixOf (c :: r) then some (.bool false, (c :: r).drop 5)
    else (parseNumber (c :: r)).map (fun (q, rest) => (.num (.finite q), rest))

/-- Parse the members of a JSON object after `{` (with leading whitespace
skipped), accumulating parsed fields in order. -/
def parseMembers : Nat → List Char → List (String × JsVal) → Option (JsVal × List Char)
  | 0, _, _ => none
  | _ + 1, '}' :: r, [] => some (.obj [], r)
  | fuel + 1, '"' :: r, acc =>
    match parseStringChars r with
    | none => none
    | some (key, r2) =>
      match skipWs r2 with
      | ':' :: r3 =>
        match parseValue fuel (skipWs r3) with
        | none => none
        | some (v, r4) =>
          match skipWs r4 with
          | ',' :: r5 =>
            match skipWs r5 with
            | '"' :: r6 => parseMembers fuel ('"' :: r6) (acc ++ [(String.mk key, v)])
            | _ => none
          | '}' :: r5 => some (.obj (acc ++ [(String.mk key, v)]), r5)
          | _ => none
      | _ => none
  | _ + 1, _, _ => none

/-- Parse the elements of a JSON array after `[` (with leading whitespace
skipped), accumulating parsed elements in order. -/
def parseElems : Nat → List Char → List JsVal → Option (JsVal × List Char)
  | 0, _, _ => none
  | _ + 1, ']' :: r, [] => some (.arr [], r)
  | fuel + 1, s, acc =>
    match parseValue fuel s with
    | none => none
    | some (v, r2) =>
      match skipWs r2 with
      | ',' :: r3 => parseElems fuel (skipWs r3) (acc ++ [v])
      | ']' :: r3 => some (.arr (acc ++ [v]), r3)
      | _ => none

end

/-- Model of `JSON.parse`: parse one JSON value surrounded by optional
whitespace; any leftover input is a syntax error (`none` stands for the thrown
`SyntaxError`, which the caller catches). -/
def parseJSON (s : String) : Option JsVal :=
  match parseValue (s.length + 1) (skipWs s.data) with
  | some (v, rest) => if skipWs rest = [] then some v else none
  | none => none

/-- The regular-expression fragments needed by the two patterns in
`textRenderer`: a literal, a character-class star (greedy or lazy), and an
optional single character (`\n?`, greedy as in JavaScript). -/
inductive RE where
  | lit (cs : List Char)
  | star (p : Char → Bool) (lzy : Bool)
  | opt (c : Char)

/-- Backtracking matcher anchored at the start of `s`, following JavaScript's
ordering exactly: a greedy star tries the longest repetition first, a lazy star
the shortest, `opt` prefers to consume; the first alternative whose
continuation succeeds wins. Returns how many characters each pattern element
consumed. The fuel argument gives structural termination; every recursive call
strictly decreases `s.length + re.length`, so `reMatchTop`'s fuel of
`s.length + re.length + 1` is never exhausted. -/
def reMatch : Nat → List RE → List Char → Option (List Nat)
  | 0, _, _ => none
  | _ + 1, [], _ => some []
  | fuel + 1, .lit cs :: ps, s =>
    if cs.isPrefixOf s then
      match reMatch fuel ps (s.drop cs.length) with
      | some ns => some (cs.length :: ns)
      | none => none
    else none
  | fuel + 1, .opt c :: ps, s =>
    match s with
    | c' :: s' =>
      if c' = c then
        match reMatch fuel ps s' with
        | some ns => some (1 :: ns)
        | none =>
          match reMatch fuel ps (c' :: s') with
          | some ns => some (0 :: ns)
          | none => none
      else
        match reMatch fuel ps (c' :: s') with
        | some ns => some (0 :: ns)
        | none => none
    | [] =>
      match reMatch fuel ps [] with
      | some ns => some (0 :: ns)
      | none => none
  | fuel + 1, .star p lzy :: ps, s =>
    if lzy then
      match reMatch fuel ps s with
      | some ns => some (0 :: ns)
      | none =>
        match s with
        | c :: s' =>
          if p c then
            match reMatch fuel (.star p lzy :: ps) s' with
            | some (n :: ns) => some ((n + 1) :: ns)
            | _ => none
          else none
        | [] => none
    else
      match s with
      | c :: s' =>
        if p c then
          match reMatch fuel (.star p lzy :: ps) s' with
          | some (n :: ns) => some ((n + 1) :: ns)
          | _ =>
            match reMatch fuel ps (c :: s') with
            | some ns => some (0 :: ns)
            | none => none
        else
          match reMatch fuel ps (c :: s') with
          | some ns => some (0 :: ns)
          | none => none
      | [] =>
        match reMatch fuel ps [] with
        | some ns => some (0 :: ns)
        | none => none

/-- `reMatch` with sufficient fuel. -/
def reMatchTop (re : List RE) (s : List Char) : Option (List Nat) :=
  reMatch (s.length + re.length + 1) re s

/-- Leftmost match: the first start position (scanning left to right) at which
the anchored matcher succeeds, as JavaScript `String.prototype.match` without
the global flag. -/
def reSearch (re : List RE) (s : List Char) : Option (Nat × List Nat) :=
  match reMatchTop re s with
  | some ns => some (0, ns)
  | none =>
    match s with
    | [] => none
    | _ :: s' =>
      match reSearch re s' with
      | some (i, ns) => some (i + 1, ns)
      | none => none

/-- The fenced-block pattern of `textRenderer`, from the source line
`text.match(/```json\s*\n?([\s\S]*?)\n?```/)`: the literal fence label, greedy
whitespace, an optional newline, the lazy capture group, an optional newline,
and the closing fence. -/
def fencedRE : List RE :=
  [.lit (("```json").data), .star wsChar false, .opt '\n',
   .star (fun _ => true) true, .opt '\n', .lit (("```").data)]

/-- Result of the fenced-block regex on a text: the whole match
(`jsonBlockMatch[0]`) and the capture group (`jsonBlockMatch[1]`). -/
def matchFenced (text : String) : Option (String × String) :=
  match reSearch fencedRE text.data with
  | some (i, [n0, n1, n2, n3, n4, n5]) =>
    let t := text.data.drop i
    some (String.mk (t.take (n0 + n1 + n2 + n3 + n4 + n5)),
          String.mk ((t.drop (n0 + n1 + n2)).take n3))
  | _ => none

/-- The inline pattern of `textRenderer`, from the source line
`text.match(/\{[^{}]*"type":\s*"stock_chart"[\s\S]*?"data":\s*\[[\s\S]*?\][\s\S]*?\}/)`. -/
def inlineRE : List RE :=
  [.lit ['{'], .star (fun c => !(c = '{' || c = '}')) false,
   .lit (("\"type\":").data), .star wsChar false,
   .lit (("\"stock_chart\"").data),
   .star (fun _ => true) true, .lit (("\"data\":").data), .star wsChar false,
   .lit ['['], .star (fun _ => true) true, .lit [']'],
   .star (fun _ => true) true, .lit ['}']]

/-- Result of the inline regex on a text: the whole match
(`inlineJsonMatch[0]`). -/
def matchInline (text : String) : Option String :=
  match reSearch inlineRE text.data with
  | some (i, ns) => some (String.mk ((text.data.drop i).take ns.sum))
  | none => none

/-- The props handed to `StockChart` by `textRenderer` on acceptance:
`ticker={chartData.ticker}`, `company_name={chartData.company_name ||
chartData.ticker}`, `period={chartData.period || "1mo"}`,
`data={chartData.data}`, `current_price={chartData.current_price}`. -/
structure ChartArgs where
  ticker : JsVal
  company_name : JsVal
  period : JsVal
  data : JsVal
  current_price : JsVal

/-- Result of `textRenderer` on one message: either the original text unchanged
(no payload found) or the chart props plus the stripped residual text. -/
inductive ExtractResult where
  | noPayload (text : String)
  | found (args : ChartArgs) (stripped : String)

/-- One extraction attempt on a candidate fragment: `JSON.parse(jsonSrc)`
(a syntax error is caught and degrades to `none`), the acceptance test
`chartData.type === "stock_chart" && chartData.data && chartData.ticker`
(a thrown property access is caught likewise), and on acceptance the
construction of the `StockChart` props together with
`text.replace(whole, '').trim()`. -/
def tryChart (text whole jsonSrc : String) : Option (ChartArgs × String) :=
  match parseJSON jsonSrc with
  | none => none
  | some cd =>
    match getField cd ("type") with
    | .error _ => none
    | .ok ty =>
      if isStr ty ("stock_chart") then
        match getField cd ("data") with
        | .error _ => none
        | .ok d =>
          if truthy d then
            match getField cd ("ticker") with
            | .error _ => none
            | .ok tk =>
              if truthy tk then
                match getField cd ("company_name"), getField cd ("period"),
                      getField cd ("current_price") with
                | .ok cn, .ok pd, .ok cp =>
                  some ({ ticker := tk
                          company_name := jsOr cn tk
                          period := jsOr pd (.str ("1mo"))
                          data := d
                          current_price := cp },
                        jsTrimS (replaceFirst text whole))
                | _, _, _ => none
              else none
          else none
      else none

/-- The inline half of `textRenderer`: try the inline regex; on a match attempt
extraction from `inlineJsonMatch[0]`; otherwise (or on rejection) return the
text as-is. -/
def tryInlinePath (text : String) : ExtractResult :=
  match matchInline text with
  | some whole =>
    match tryChart text whole whole with
    | some (args, stripped) => .found args stripped
    | none => .noPayload text
  | none => .noPayload text

/-- The `textRenderer` function of the chat page: try the fenced ```json block
first; if it is absent or its extraction attempt fails (parse error or
acceptance-test failure), fall through to the inline form; if neither yields a
payload, return the text unchanged. -/
def textRenderer (text : String) : ExtractResult :=
  match matchFenced text with
  | some (whole, inner) =>
    match tryChart text whole inner with
    | some (args, stripped) => .found args stripped
    | none => tryInlinePath text
  | none => tryInlinePath text

/-- The fenced attempt as a single function: the fenced match, if any, taken
through the extraction attempt. -/
def fencedAttempt (text : String) : Option (ChartArgs × String) :=
  match matchFenced text with
  | some (whole, inner) => tryChart text whole inner
  | none => none

/-- Number of payloads carried by an extraction result. -/
def payloadCount : ExtractResult → Nat
  | .noPayload _ => 0
  | .found _ _ => 1

/-- `data[0]?.price || 0` on an encoded price point is the price itself: when
the price is nonzero `||` keeps it, and when it is zero the fallback literal
`0` is the same value. -/
theorem jsOr_price_zero (q : ℚ) :
    jsOr (.num (.finite q)) (.num (.finite 0)) = .num (.finite q) := by
  by_cases hq : q = 0
  · subst hq; simp [jsOr, truthy]
  · simp [jsOr, truthy, hq]

/-- C1 (claim is violated by the code): for a payload whose first price is
exactly zero and whose current price is 10, the rendered percent-change slot
is the string "Infinity" — the non-finite value propagates to the display and
no fallback is shown. `(10 - 0) / 0` evaluates to JavaScript `Infinity` and
`Infinity.toFixed(2)` is "Infinity". -/
theorem stockChart_zero_start_price_renders_Infinity :
    renderPayload { ticker := "XYZ", company_name := "XYZ Corp", period := "1mo",
                    data := [{ date := "2024-01-01", price := 0, volume := 0 }],
                    current_price := 10 } =
      .ok (.chart
        { ticker := .str ("XYZ")
          period := .str ("1mo")
          company_name := .str ("XYZ Corp")
          currentPriceText := "10.00"
          isPositive := true
          priceChangeText := "10.00"
          percentText := "Infinity"
          chartData := .arr [.obj [(("date"), .str ("2024-01-01")),
                                   (("price"), .num (.finite 0)),
                                   (("volume"), .num (.finite 0))]]
          firstPriceText := "0.00"
          pointCount := .num (.finite 1) }) := by
  rfl

/-- The kernel-computable subtraction agrees with rational subtraction. -/
theorem qSub_eq_sub (a b : ℚ) : qSub a b = a - b := (Rat.sub_def' a b).symm

/-- C5: for every payload with non-empty data the renderer derives
`priceChange = current_price - data[0].price` (displayed through
`toFixed(2)`), `priceChangePercent = (priceChange / data[0].price) * 100`
formatted to two decimal places, and the directional flag is positive exactly
when `priceChange >= 0`. -/
theorem stockChart_price_change_formula (p : ChartPayload) (d0 : PricePoint)
    (rest : List PricePoint) (h : p.data = d0 :: rest) :
    ∃ v : ChartView,
      renderPayload p = .ok (.chart v) ∧
      v.priceChangeText = JsNum.toFixed2 (.finite (p.current_price - d0.price)) ∧
      v.percentText = JsNum.toFixed2
        (JsNum.mul (JsNum.div (.finite (p.current_price - d0.price)) (.finite d0.price))
          (.finite 100)) ∧
      v.isPositive = decide (p.current_price - d0.price ≥ 0) := by
  obtain ⟨tk, cn, per, data, cp⟩ := p
  simp only at h ⊢
  subst h
  have hlen : ¬(((d0 :: rest).map encodePoint).length : ℚ) = 0 := by
    simp only [List.length_map, List.length_cons, Nat.cast_add, Nat.cast_one]
    exact Nat.cast_add_one_ne_zero rest.length
  have hfp : optField (encodePoint d0) ("price") = .num (.finite d0.price) := rfl
  unfold renderPayload StockChart
  simp only [encodeData, truthy, Bool.true_eq_false, if_false, getField, if_pos rfl,
    isNumZero, decide_eq_false hlen, Bool.false_eq_true, jsIndex, List.map_cons,
    List.get?, Option.getD_some, hfp, jsOr_price_zero, jsSub, toNumber, JsNum.sub,
    qSub_eq_sub, jsToFixed, JsNum.ge]
  exact ⟨_, rfl, rfl, rfl, rfl⟩

/-- Witness for C5: the spec's concrete scenario with prices 150 and 155. -/
theorem stockChart_price_change_formula_witness :
    ∃ v : ChartView,
      renderPayload { ticker := "AAPL", company_name := "Apple Inc.", period := "1mo",
                      data := [{ date := "2024-01-01", price := 150, volume := 1000000 },
                               { date := "2024-01-31", price := 155, volume := 900000 }],
                      current_price := 155 } = .ok (.chart v) ∧
      v.priceChangeText = JsNum.toFixed2 (.finite ((155 : ℚ) - 150)) ∧
      v.percentText = JsNum.toFixed2
        (JsNum.mul (JsNum.div (.finite ((155 : ℚ) - 150)) (.finite 150)) (.finite 100)) ∧
      v.isPositive = decide ((155 : ℚ) - 150 ≥ 0) :=
  stockChart_price_change_formula _
    { date := "2024-01-01", price := 150, volume := 1000000 }
    [{ date := "2024-01-31", price := 155, volume := 900000 }] rfl

/-- C6: on a payload with empty data the renderer produces the dedicated
no-data state carrying the ticker, taking the early-return branch before any
numeric derivation (the result does not depend on any price field). -/
theorem stockChart_empty_data_no_data (p : ChartPayload) (h : p.data = []) :
    renderPayload p = .ok (.noData (.str p.ticker)) := by
  obtain ⟨tk, cn, per, data, cp⟩ := p
  simp only at h ⊢
  subst h
  rfl

/-- Witness for C6: the spec's scenario with `data: []`. -/
theorem stockChart_empty_data_no_data_witness :
    renderPayload { ticker := "AAPL", company_name := "Apple Inc.", period := "1mo",
                    data := [], current_price := 155 } = .ok (.noData (.str ("AAPL"))) :=
  stockChart_empty_data_no_data _ rfl

/-- C8: the renderer is a pure function of its five props — the embedding is a
total function with no state or effects, so re-rendering any payload (at
either the raw-value or the typed-payload level) yields the identical output. -/
theorem stockChart_deterministic :
    (∀ ticker company_name period data current_price : JsVal,
      StockChart ticker company_name period data current_price =
        StockChart ticker company_name period data current_price) ∧
    (∀ p : ChartPayload, renderPayload p = renderPayload p) :=
  ⟨fun _ _ _ _ _ => rfl, fun _ => rfl⟩

set_option maxRecDepth 10000 in
/-- C9: the acceptance test reads only `type`, `data` and `ticker`, so a
fenced payload with no `current_price` field is accepted (the prop arrives as
`undefined`); on its non-empty data the renderer then throws, because
`current_price.toFixed(2)` is evaluated unconditionally — `render` is not
total over extractor-accepted payloads. -/
theorem textRenderer_accepts_missing_current_price :
    ∃ args : ChartArgs,
      textRenderer ("```json\n\x7b\"type\": \"stock_chart\", \"ticker\": \"AAPL\", \"data\": [\x7b\"date\": \"2024-01-01\", \"price\": 1, \"volume\": 2\x7d]\x7d\n```")
        = .found args "" ∧
      args.ticker = .str ("AAPL") ∧
      args.current_price = .undef ∧
      truthy args.data = true ∧
      ∃ e : JsError,
        StockChart args.ticker args.company_name args.period args.data
          args.current_price = .error e := by
  exact ⟨_, rfl, rfl, rfl, rfl, _, rfl⟩

/-- C2: the fenced-block form is attempted first and wins when it is accepted;
the inline form is consulted only when the fenced attempt fails (no fenced
match, parse failure, or acceptance-test failure); and every extraction result
carries at most one payload, so the first match under this order is the only
one extracted. -/
theorem textRenderer_search_order :
    (∀ (text whole inner : String) (r : ChartArgs × String),
        matchFenced text = some (whole, inner) →
        tryChart text whole inner = some r →
        textRenderer text = .found r.1 r.2) ∧
    (∀ text whole inner, matchFenced text = some (whole, inner) →
        tryChart text whole inner = none →
        textRenderer text = tryInlinePath text) ∧
    (∀ text, matchFenced text = none → textRenderer text = tryInlinePath text) ∧
    (∀ text, payloadCount (textRenderer text) ≤ 1) := by
  refine ⟨?_, ?_, ?_, ?_⟩
  · intro text whole inner r hm ht
    obtain ⟨args, stripped⟩ := r
    simp only [textRenderer, hm, ht]
  · intro text whole inner hm ht
    simp only [textRenderer, hm, ht]
  · intro text hm
    simp only [textRenderer, hm]
  · intro text
    cases textRenderer text <;> simp [payloadCount]

set_option maxRecDepth 10000 in
/-- Witness for C2: a fenced text where the fenced attempt wins, and a plain
text where the extractor falls through to the inline path. -/
theorem textRenderer_search_order_witness :
    textRenderer ("Chart:\n```json\n\x7b\"type\": \"stock_chart\", \"ticker\": \"T\", \"data\": [], \"current_price\": 5\x7d\n```") =
      .found { ticker := .str ("T"), company_name := .str ("T"), period := .str ("1mo"),
               data := .arr [], current_price := .num (.finite 5) } ("Chart:") ∧
    textRenderer ("hello world") = tryInlinePath ("hello world") ∧
    payloadCount (textRenderer ("hello world")) ≤ 1 := by
  refine ⟨?_, ?_, ?_⟩
  · exact textRenderer_search_order.1 _
      ("```json\n\x7b\"type\": \"stock_chart\", \"ticker\": \"T\", \"data\": [], \"current_price\": 5\x7d\n```")
      ("\x7b\"type\": \"stock_chart\", \"ticker\": \"T\", \"data\": [], \"current_price\": 5\x7d")
      ({ ticker := .str ("T"), company_name := .str ("T"), period := .str ("1mo"),
         data := .arr [], current_price := .num (.finite 5) }, ("Chart:")) rfl rfl
  · exact textRenderer_search_order.2.2.1 _ rfl
  · exact textRenderer_search_order.2.2.2 _

/-- C3: whenever the fenced regex matches and the captured fragment parses to
an object with discriminator "stock_chart", a non-empty `ticker` string and a
present `data` array, `textRenderer` returns the parsed payload (with the
`company_name` and `period` defaults applied) together with the input text
with the matched raw fragment removed and surrounding whitespace trimmed. -/
theorem textRenderer_extracts_fenced_payload (text whole inner : String)
    (fs : List (String × JsVal)) (tstr : String) (dl : List JsVal)
    (hm : matchFenced text = some (whole, inner))
    (hp : parseJSON inner = some (.obj fs))
    (hty : lookupLast fs ("type") = some (.str ("stock_chart")))
    (htk : lookupLast fs ("ticker") = some (.str tstr)) (hts : tstr ≠ "")
    (hd : lookupLast fs ("data") = some (.arr dl)) :
    textRenderer text =
      .found { ticker := .str tstr
               company_name := jsOr ((lookupLast fs ("company_name")).getD .undef) (.str tstr)
               period := jsOr ((lookupLast fs ("period")).getD .undef) (.str ("1mo"))
               data := .arr dl
               current_price := (lookupLast fs ("current_price")).getD .undef }
        (jsTrimS (replaceFirst text whole)) := by
  have ht : tryChart text whole inner =
      some ({ ticker := .str tstr
              company_name := jsOr ((lookupLast fs ("company_name")).getD .undef) (.str tstr)
              period := jsOr ((lookupLast fs ("period")).getD .undef) (.str ("1mo"))
              data := .arr dl
              current_price := (lookupLast fs ("current_price")).getD .undef },
            jsTrimS (replaceFirst text whole)) := by
    simp [tryChart, hp, getField, hty, htk, hd, isStr, truthy, hts]
  simp only [textRenderer, hm, ht]

set_option maxRecDepth 10000 in
/-- Witness for C3 at a concrete fenced message carrying every field. -/
theorem textRenderer_extracts_fenced_payload_witness :
    textRenderer ("Numbers:\n```json\n\x7b\"type\": \"stock_chart\", \"ticker\": \"MSFT\", \"company_name\": \"Microsoft\", \"period\": \"5d\", \"data\": [], \"current_price\": 7\x7d\n```") =
      .found { ticker := .str ("MSFT"), company_name := .str ("Microsoft"),
               period := .str ("5d"), data := .arr [],
               current_price := .num (.finite 7) } ("Numbers:") :=
  textRenderer_extracts_fenced_payload _
    ("```json\n\x7b\"type\": \"stock_chart\", \"ticker\": \"MSFT\", \"company_name\": \"Microsoft\", \"period\": \"5d\", \"data\": [], \"current_price\": 7\x7d\n```")
    ("\x7b\"type\": \"stock_chart\", \"ticker\": \"MSFT\", \"company_name\": \"Microsoft\", \"period\": \"5d\", \"data\": [], \"current_price\": 7\x7d")
    [(("type"), .str ("stock_chart")), (("ticker"), .str ("MSFT")),
     (("company_name"), .str ("Microsoft")), (("period"), .str ("5d")),
     (("data"), .arr []), (("current_price"), .num (.finite 7))]
    ("MSFT") [] rfl rfl rfl rfl (by decide) rfl

/-- C4: when no fragment is accepted — no candidate match at all, a fragment
whose parse fails, or a parsed object failing the acceptance test (all of
which make the per-fragment attempt yield `none`, the model of the caught
exception / failed check) — `textRenderer` returns the original text
unchanged; the extractor is total and never propagates an error. -/
theorem textRenderer_degrades_to_original (text : String)
    (h1 : ∀ whole inner, matchFenced text = some (whole, inner) →
            tryChart text whole inner = none)
    (h2 : ∀ whole, matchInline text = some whole → tryChart text whole whole = none) :
    textRenderer text = .noPayload text := by
  have hin : tryInlinePath text = .noPayload text := by
    cases hi : matchInline text with
    | none => simp only [tryInlinePath, hi]
    | some w => simp only [tryInlinePath, hi, h2 w hi]
  cases hm : matchFenced text with
  | none => simp only [textRenderer, hm, hin]
  | some p =>
    obtain ⟨whole, inner⟩ := p
    simp only [textRenderer, hm, h1 whole inner hm, hin]

/-- Witness for C4: an ordinary chat reply with no embedded fragment. -/
theorem textRenderer_degrades_to_original_witness :
    textRenderer ("Hello! How can I help you today?") =
      .noPayload ("Hello! How can I help you today?") := by
  apply textRenderer_degrades_to_original
  · intro whole inner h
    rw [show matchFenced ("Hello! How can I help you today?") = none from rfl] at h
    exact Option.noConfusion h
  · intro whole h
    rw [show matchInline ("Hello! How can I help you today?") = none from rfl] at h
    exact Option.noConfusion h

/-- C7: for every accepted fragment whose parsed object has no `company_name`
field and no `period` field, the payload handed to the renderer carries
`company_name` equal to the ticker and `period` equal to the one-month label
"1mo" (`chartData.company_name || chartData.ticker` and
`chartData.period || "1mo"`). -/
theorem tryChart_applies_defaults (text whole inner : String)
    (fs : List (String × JsVal)) (dv tkv : JsVal)
    (hp : parseJSON inner = some (.obj fs))
    (hty : lookupLast fs ("type") = some (.str ("stock_chart")))
    (hd : lookupLast fs ("data") = some dv) (hdt : truthy dv = true)
    (htk : lookupLast fs ("ticker") = some tkv) (htt : truthy tkv = true)
    (hcn : lookupLast fs ("company_name") = none)
    (hpd : lookupLast fs ("period") = none) :
    ∃ args stripped,
      tryChart text whole inner = some (args, stripped) ∧
      args.company_name = args.ticker ∧
      args.period = .str ("1mo") := by
  refine ⟨{ ticker := tkv, company_name := jsOr .undef tkv,
            period := jsOr .undef (.str ("1mo")), data := dv,
            current_price := (lookupLast fs ("current_price")).getD .undef },
          jsTrimS (replaceFirst text whole), ?_, ?_, ?_⟩
  · simp [tryChart, hp, getField, hty, hd, hdt, htk, htt, hcn, hpd, isStr]
  · simp [jsOr, truthy]
  · simp [jsOr, truthy]

/-- Witness for C7: a fenced fragment with only the three required fields. -/
theorem tryChart_applies_defaults_witness :
    ∃ args stripped,
      tryChart ("irrelevant") ("w")
          ("\x7b\"type\": \"stock_chart\", \"ticker\": \"TSLA\", \"data\": []\x7d") =
        some (args, stripped) ∧
      args.company_name = args.ticker ∧
      args.period = .str ("1mo") :=
  tryChart_applies_defaults _ _ _
    [(("type"), .str ("stock_chart")), (("ticker"), .str ("TSLA")), (("data"), .arr [])]
    (.arr []) (.str ("TSLA")) rfl rfl rfl rfl rfl rfl rfl rfl

/-- A property read returning a string value (for a property other than
`length`) can only come from an object. -/
theorem getField_ok_str_obj (cd : JsVal) (n s : String) (hn : n ≠ "length")
    (h : getField cd n = .ok (.str s)) : ∃ fs, cd = .obj fs := by
  cases cd with
  | undef => simp [getField] at h
  | null => simp [getField] at h
  | bool b => simp [getField] at h
  | num m => simp [getField] at h
  | str t => simp [getField, hn] at h
  | arr xs => simp [getField, hn] at h
  | obj fs => exact ⟨fs, rfl⟩

/-- A parsed fragment whose `ticker` field is the empty string is rejected by
the acceptance test: the empty string is falsy, so
`chartData.data && chartData.ticker` fails regardless of the other fields. -/
theorem tryChart_rejects_empty_ticker (text whole inner : String) (cd : JsVal)
    (hp : parseJSON inner = some cd)
    (htk : getField cd ("ticker") = .ok (.str "")) :
    tryChart text whole inner = none := by
  obtain ⟨fs, rfl⟩ := getField_ok_str_obj cd ("ticker") "" (by decide) htk
  simp only [getField, Except.ok.injEq] at htk
  simp only [tryChart, hp]
  split
  · rfl
  · split
    · split
      · rfl
      · simp [getField, htk, truthy]
    · rfl

/-- C10: the presence checks are truthiness checks. A fragment with the right
discriminator but `ticker` equal to the empty string is rejected; a `data`
field that is present but `null`, `0` or `false` is rejected; a present but
empty array for `data` is truthy and accepted; and for a text whose fenced
fragment has an empty ticker (and whose inline candidates are all rejected,
e.g. none exist) the extractor returns the original text unchanged. -/
theorem tryChart_truthiness_checks :
    (∀ (text whole inner : String) (cd : JsVal),
        parseJSON inner = some cd →
        getField cd ("type") = .ok (.str ("stock_chart")) →
        getField cd ("ticker") = .ok (.str "") →
        tryChart text whole inner = none) ∧
    (∀ (text whole inner : String) (cd dv : JsVal),
        parseJSON inner = some cd →
        getField cd ("data") = .ok dv →
        (dv = .null ∨ dv = .num (.finite 0) ∨ dv = .bool false) →
        tryChart text whole inner = none) ∧
    (∀ (text whole inner : String) (cd tkv : JsVal),
        parseJSON inner = some cd →
        getField cd ("type") = .ok (.str ("stock_chart")) →
        getField cd ("data") = .ok (.arr []) →
        getField cd ("ticker") = .ok tkv →
        truthy tkv = true →
        ∃ args stripped, tryChart text whole inner = some (args, stripped) ∧
          args.data = .arr []) ∧
    (∀ (text whole inner : String) (cd : JsVal),
        matchFenced text = some (whole, inner) →
        parseJSON inner = some cd →
        getField cd ("type") = .ok (.str ("stock_chart")) →
        getField cd ("ticker") = .ok (.str "") →
        (∀ w, matchInline text = some w → tryChart text w w = none) →
        textRenderer text = .noPayload text) := by
  refine ⟨?_, ?_, ?_, ?_⟩
  · intro text whole inner cd hp hty htk
    exact tryChart_rejects_empty_ticker text whole inner cd hp htk
  · intro text whole inner cd dv hp hd hdv
    have hdt : truthy dv = false := by rcases hdv with h | h | h <;> subst h <;> rfl
    simp only [tryChart, hp]
    split
    · rfl
    · split
      · rw [hd]
        simp [hdt]
      · rfl
  · intro text whole inner cd tkv hp hty hd htk htt
    obtain ⟨fs, rfl⟩ := getField_ok_str_obj cd ("type") ("stock_chart") (by decide) hty
    simp only [getField, Except.ok.injEq] at hty hd htk
    refine ⟨{ ticker := tkv,
              company_name := jsOr ((lookupLast fs ("company_name")).getD .undef) tkv,
              period := jsOr ((lookupLast fs ("period")).getD .undef) (.str ("1mo")),
              data := .arr [],
              current_price := (lookupLast fs ("current_price")).getD .undef },
            jsTrimS (replaceFirst text whole), ?_, rfl⟩
    simp [tryChart, hp, getField, hty, hd, htk, htt, isStr,
      show truthy (JsVal.arr []) = true from rfl]
  · intro text whole inner cd hm hp hty htk hin
    have hfc := tryChart_rejects_empty_ticker text whole inner cd hp htk
    have hinl : tryInlinePath text = .noPayload text := by
      cases hi : matchInline text with
      | none => simp only [tryInlinePath, hi]
      | some w => simp only [tryInlinePath, hi, hin w hi]
    simp only [textRenderer, hm, hfc, hinl]

set_option maxRecDepth 10000 in
/-- Witness for C10: concrete fragments for each of the four parts; the text in
the last part has a nested object before `type`, so the inline regex finds no
candidate at all. -/
theorem tryChart_truthiness_checks_witness :
    tryChart ("t") ("w")
        ("\x7b\"type\": \"stock_chart\", \"ticker\": \"\", \"data\": [1]\x7d") = none ∧
    tryChart ("t") ("w")
        ("\x7b\"type\": \"stock_chart\", \"data\": null, \"ticker\": \"T\"\x7d") = none ∧
    (∃ args stripped,
      tryChart ("t") ("w")
          ("\x7b\"type\": \"stock_chart\", \"ticker\": \"T\", \"data\": []\x7d") =
        some (args, stripped) ∧ args.data = .arr []) ∧
    textRenderer ("```json\n\x7b\"meta\": \x7b\x7d, \"type\": \"stock_chart\", \"ticker\": \"\", \"data\": [1]\x7d\n```") =
      .noPayload ("```json\n\x7b\"meta\": \x7b\x7d, \"type\": \"stock_chart\", \"ticker\": \"\", \"data\": [1]\x7d\n```") := by
  refine ⟨?_, ?_, ?_, ?_⟩
  · exact tryChart_truthiness_checks.1 _ _ _
      (.obj [(("type"), .str ("stock_chart")), (("ticker"), .str ""),
             (("data"), .arr [.num (.finite 1)])]) rfl rfl rfl
  · exact tryChart_truthiness_checks.2.1 _ _ _
      (.obj [(("type"), .str ("stock_chart")), (("data"), .null),
             (("ticker"), .str ("T"))]) .null rfl rfl (Or.inl rfl)
  · exact tryChart_truthiness_checks.2.2.1 _ _ _
      (.obj [(("type"), .str ("stock_chart")), (("ticker"), .str ("T")),
             (("data"), .arr [])]) (.str ("T")) rfl rfl rfl rfl rfl
  · refine tryChart_truthiness_checks.2.2.2 _
      ("```json\n\x7b\"meta\": \x7b\x7d, \"type\": \"stock_chart\", \"ticker\": \"\", \"data\": [1]\x7d\n```")
      ("\x7b\"meta\": \x7b\x7d, \"type\": \"stock_chart\", \"ticker\": \"\", \"data\": [1]\x7d")
      (.obj [(("meta"), .obj []), (("type"), .str ("stock_chart")),
             (("ticker"), .str ""), (("data"), .arr [.num (.finite 1)])])
      rfl rfl rfl rfl ?_
    intro w h
    rw [show matchInline ("```json\n\x7b\"meta\": \x7b\x7d, \"type\": \"stock_chart\", \"ticker\": \"\", \"data\": [1]\x7d\n```") = none from rfl] at h
    exact Option.noConfusion h
